import Mathlib

/-!
Verification of the windowed selection engine of the `inquire`
`CustomSelectPrompt` (src/inquire/src/prompts/custom_select/prompt.rs).

The Rust code is shallowly embedded: the engine's `Window` state and the
prompt state become Lean structures, each method becomes a pure function
returning the updated state (and, where the Rust method returns an
`ActionResult`, that result).  Rust `usize` arithmetic is modelled by `Nat`
(`saturating_sub` is `Nat` subtraction); `todo!()` panics and `Vec` index
panics are modelled by `Option.none`.  The external collaborators that are
not part of the given sources (the filter text `Input`, the `OptionFetcher`
trait object) are modelled as function parameters, following the spec's
contracts for them.
-/

namespace Inquire

/-- Result of handling an action.  Modelled from the spec: a transition
either "needs redraw" or reports "no change" (clean). -/
inductive ActionResult where
  | needsRedraw
  | clean
deriving DecidableEq, Repr

/-- Modelled from the spec: the Filter Text Input (an external collaborator
whose source is not under src/) reports on `handle` whether its content
changed; a report that is not `contentChanged` may still have moved the
text cursor (`positionChanged`) or done nothing (`clean`). -/
inductive InputActionResult where
  | contentChanged
  | positionChanged
  | clean
deriving DecidableEq, Repr

/-- Modelled from the spec: the conversion `result.into()` from the Filter
Text Input's report to the prompt's `ActionResult`: any visible change
needs a redraw. -/
def InputActionResult.toActionResult : InputActionResult → ActionResult
  | .contentChanged => .needsRedraw
  | .positionChanged => .needsRedraw
  | .clean => .clean

/-- `CustomSelectPromptAction` from action.rs; `β` is the type of filter
text-input edit actions (`InputAction`), kept abstract. -/
inductive CustomSelectPromptAction (β : Type) where
  | filterInput (a : β)
  | moveUp
  | moveDown
  | pageUp
  | pageDown
  | moveToStart
  | moveToEnd
deriving DecidableEq, Repr

/-- `ListOption` (list_option.rs, not under src/): an option value tagged
with an index, as produced by `ListOption::new(index, value)`. -/
structure ListOption (α : Type) where
  index : Nat
  value : α
deriving DecidableEq, Repr

/-- The engine's private `Window` state (prompt.rs lines 17-22). -/
structure Window where
  offset : Nat
  window_length : Nat
  total_length : Nat
  cursor_index : Nat
deriving DecidableEq, Repr

/-- The prompt state: the fetched slice, the window, and the filter-input
state (abstract type `ι`).  `fetchLog` instruments the embedding: every
call to the Option Source's `fetch` is recorded as
`(filter text, offset, amount)`, newest first; no transition reads it. -/
structure PromptState (α ι : Type) where
  fetched_options : List α
  window : Window
  input : ι
  fetchLog : List (String × Nat × Nat)
deriving DecidableEq, Repr

/-- The page descriptor handed to the rendering backend (utils::Page). -/
structure Page (α : Type) where
  first : Bool
  last : Bool
  content : List (ListOption α)
  cursor : Option Nat
  total : Nat
deriving DecidableEq, Repr

/-- `update_cursor_position` (prompt.rs lines 87-103).  When the position
changes, `cursor_index` is set first and the new offset is computed from
it, so the first `min` operand is `new_position`. -/
def update_cursor_position (w : Window) (new_position : Nat) :
    Window × ActionResult :=
  if new_position ≠ w.cursor_index then
    ({ w with
        cursor_index := new_position,
        offset :=
          min (min new_position (w.total_length - w.window_length))
            (new_position - w.window_length / 2) },
      .needsRedraw)
  else
    (w, .clean)

/-- `move_cursor_up` (prompt.rs lines 67-76).  The `wrap` flag is accepted
but unused, as in the source. -/
def move_cursor_up (w : Window) (qty : Nat) (wrap : Bool) :
    Window × ActionResult :=
  if w.total_length = 0 then
    (w, .clean)
  else
    let qty := qty % w.total_length
    let new_index :=
      (w.cursor_index + w.total_length - qty) % w.total_length
    update_cursor_position w new_index

/-- `move_cursor_down` (prompt.rs lines 78-85). -/
def move_cursor_down (w : Window) (qty : Nat) (wrap : Bool) :
    Window × ActionResult :=
  if w.total_length = 0 then
    (w, .clean)
  else
    update_cursor_position w ((w.cursor_index + qty) % w.total_length)

/-- `fetched_index_from_cursor_index` (prompt.rs lines 111-113); `Nat`
subtraction is `usize::saturating_sub`. -/
def fetched_index_from_cursor_index (w : Window) : Nat :=
  w.cursor_index - w.offset

/-- `has_answer_highlighted` (prompt.rs lines 105-109). -/
def has_answer_highlighted {α ι : Type} (s : PromptState α ι) : Bool :=
  s.fetched_options[fetched_index_from_cursor_index s.window]?.isSome

/-- `Vec::swap_remove(i)`: remove the element at `i`, moving the last
element into its place; `none` models the out-of-bounds panic. -/
def swap_remove {α : Type} (l : List α) (i : Nat) : Option (α × List α) :=
  match l[i]?, l.getLast? with
  | some v, some last => some (v, (l.set i last).dropLast)
  | _, _ => none

/-- `get_final_answer` (prompt.rs lines 115-123): swap-remove the
highlighted element of the fetched slice and pair it with `index`, the
slice-local index that was used for the removal. -/
def get_final_answer {α ι : Type} (s : PromptState α ι) :
    Option (ListOption α × PromptState α ι) :=
  let index := fetched_index_from_cursor_index s.window
  match swap_remove s.fetched_options index with
  | some (value, rest) =>
      some (⟨index, value⟩, { s with fetched_options := rest })
  | none => none

/-- `refetch` (prompt.rs lines 125-142): fetch at the current filter text,
offset and window length; replace the slice and `total_length`; then
re-clamp the cursor and re-derive the offset via
`update_cursor_position`. -/
def refetch {α ι : Type} (F : String → Nat → Nat → List α × Nat)
    (content : ι → String) (s : PromptState α ι) : PromptState α ι :=
  let fetched := F (content s.input) s.window.offset s.window.window_length
  let w := { s.window with total_length := fetched.2 }
  let new_position :=
    min (min (max w.cursor_index w.offset) (w.offset + w.window_length))
      (w.total_length - 1)
  { s with
      fetched_options := fetched.1,
      window := (update_cursor_position w new_position).1,
      fetchLog :=
        (content s.input, s.window.offset, s.window.window_length) ::
          s.fetchLog }

/-- `submit` (prompt.rs lines 171-178): `some (none, s)` is `Ok(None)`
("no answer"), `some (some a, s)` is `Ok(Some(a))`; the outer `none`
models a panic inside `get_final_answer`. -/
def submit {α ι : Type} (s : PromptState α ι) :
    Option (Option (ListOption α) × PromptState α ι) :=
  if has_answer_highlighted s then
    match get_final_answer s with
    | some (a, s') => some (some a, s')
    | none => none
  else
    some (none, s)

/-- `handle` (prompt.rs lines 180-208).  `inputHandle` is the Filter Text
Input's `handle` (external collaborator); `none` models the `todo!()`
panics on the four unimplemented actions. -/
def handle {α ι β : Type} (F : String → Nat → Nat → List α × Nat)
    (content : ι → String) (inputHandle : β → ι → ι × InputActionResult)
    (s : PromptState α ι) (action : CustomSelectPromptAction β) :
    Option (PromptState α ι × ActionResult) :=
  match action with
  | .moveUp =>
      let r := move_cursor_up s.window 1 true
      some (refetch F content { s with window := r.1 }, r.2)
  | .moveDown =>
      let r := move_cursor_down s.window 1 true
      some (refetch F content { s with window := r.1 }, r.2)
  | .pageUp => none
  | .pageDown => none
  | .moveToStart => none
  | .moveToEnd => none
  | .filterInput a =>
      let r := inputHandle a s.input
      let s1 := { s with input := r.1 }
      let s2 :=
        if r.2 = InputActionResult.contentChanged then refetch F content s1
        else s1
      some (s2, r.2.toActionResult)

/-- The freshly constructed prompt state (prompt.rs lines 43-65):
`cursor_index = offset = starting_cursor`, `window_length = page_size`,
`total_length = 0`, empty slice. -/
def newPrompt {α ι : Type} (starting_cursor page_size : Nat) (input0 : ι) :
    PromptState α ι :=
  { fetched_options := []
    window :=
      { offset := starting_cursor
        window_length := page_size
        total_length := 0
        cursor_index := starting_cursor }
    input := input0
    fetchLog := [] }

/-- `setup` (prompt.rs lines 166-169): the initial mandatory refetch. -/
def setup {α ι : Type} (F : String → Nat → Nat → List α × Nat)
    (content : ι → String) (s : PromptState α ι) : PromptState α ι :=
  refetch F content s

/-- Handle a sequence of actions left to right; `none` as soon as one
handler panics. -/
def handleSeq {α ι β : Type} (F : String → Nat → Nat → List α × Nat)
    (content : ι → String) (inputHandle : β → ι → ι × InputActionResult) :
    PromptState α ι → List (CustomSelectPromptAction β) →
      Option (PromptState α ι)
  | s, [] => some s
  | s, a :: rest =>
      match handle F content inputHandle s a with
      | some (s', _) => handleSeq F content inputHandle s' rest
      | none => none

/-- The page descriptor built by `render` (prompt.rs lines 210-236);
only the descriptor construction is modelled, not the backend drawing. -/
def renderPage {α ι : Type} (s : PromptState α ι) : Page α :=
  { first := decide (s.window.offset = 0)
    last :=
      decide (s.window.total_length ≤
        s.window.offset + s.window.window_length)
    content :=
      s.fetched_options.enum.map fun p =>
        ⟨s.window.offset + p.1, p.2⟩
    cursor := some (fetched_index_from_cursor_index s.window)
    total := s.window.total_length }

/-! ### Concrete collaborators for the spec's scenarios -/

/-- An Option Source over ten indistinguishable items, independent of the
filter text; it obeys the §6 contract (`items.len ≤ limit`, empty beyond
the end). -/
def fetchTen : String → Nat → Nat → List Unit × Nat :=
  fun _ off amount => (List.replicate (min amount (10 - off)) (), 10)

/-- An Option Source matching two items (Scenario 3's post-filter list). -/
def fetchTwo : String → Nat → Nat → List Unit × Nat :=
  fun _ off amount => (List.replicate (min amount (2 - off)) (), 2)

/-- An empty Option Source (Scenario 2). -/
def fetchEmpty : String → Nat → Nat → List Unit × Nat :=
  fun _ _ _ => ([], 0)

/-- An Option Source whose answer depends on the filter text: text "a"
matches ten items, anything else six. -/
def fetchShrink : String → Nat → Nat → List Unit × Nat :=
  fun text off amount =>
    if text = "a" then (List.replicate (min amount (10 - off)) (), 10)
    else (List.replicate (min amount (6 - off)) (), 6)

/-- Trivial filter-input state: constant empty content. -/
def contentConst : Unit → String := fun _ => ""

/-- Filter-input state carrying one bit: content "a" before an edit,
"b" after. -/
def contentFlag : Bool → String := fun b => if b then "b" else "a"

/-- A filter-input handler that never changes anything. -/
def inputNoop : Unit → Unit → Unit × InputActionResult :=
  fun _ i => (i, .clean)

/-- A filter-input handler whose single edit action sets the flag and
reports that the content changed. -/
def inputSetFlag : Unit → Bool → Bool × InputActionResult :=
  fun _ _ => (true, .contentChanged)

/-- The prompt of Scenario 1 after setup: `window_length = 3`,
`total_length = 10`, `cursor_index = offset = 0`. -/
def stateTen : PromptState Unit Unit :=
  setup fetchTen contentConst (newPrompt 0 3 ())

/-- The pre-refetch state of Scenario 3: fifty matches,
`cursor_index = 40`, `window_length = 7`, offset per the derivation rule
(`min(40, 50-7, 40-3) = 37`). -/
def stateFifty : PromptState Unit Unit :=
  { fetched_options := List.replicate 7 ()
    window :=
      { offset := 37, window_length := 7, total_length := 50
        cursor_index := 40 }
    input := ()
    fetchLog := [] }

/-- A state about to submit: offset 7, cursor 9, slice holding the
options with logical indices 7, 8, 9 (values 10, 20, 30). -/
def stateSubmit : PromptState Nat Unit :=
  { fetched_options := [10, 20, 30]
    window :=
      { offset := 7, window_length := 3, total_length := 10
        cursor_index := 9 }
    input := ()
    fetchLog := [] }

/-- The state reached after setup against an empty Option Source. -/
def stateEmpty : PromptState Unit Unit :=
  { fetched_options := []
    window :=
      { offset := 0, window_length := 3, total_length := 0
        cursor_index := 0 }
    input := ()
    fetchLog := [] }

/-- The state `handle` produces from `stateTen` on `MoveUp`: cursor 9,
offset 7, one more fetch logged. -/
def stateTenAfterUp : PromptState Unit Unit :=
  { fetched_options := List.replicate 3 ()
    window :=
      { offset := 7, window_length := 3, total_length := 10
        cursor_index := 9 }
    input := ()
    fetchLog := [("", 7, 3), ("", 0, 3)] }

/-! ### Helper lemmas -/

lemma swap_remove_isSome {α : Type} (l : List α) (i : Nat)
    (h : l[i]?.isSome) : (swap_remove l i).isSome := by
  obtain ⟨v, hv⟩ := Option.isSome_iff_exists.mp h
  have hne : l ≠ [] := by
    rintro rfl
    simp at hv
  obtain ⟨last, hl⟩ :=
    Option.isSome_iff_exists.mp (List.getLast?_isSome.mpr hne)
  simp [swap_remove, hv, hl]

lemma get_final_answer_isSome {α ι : Type} (s : PromptState α ι)
    (h : has_answer_highlighted s = true) : (get_final_answer s).isSome := by
  have hs :=
    swap_remove_isSome s.fetched_options
      (fetched_index_from_cursor_index s.window)
      (by simpa [has_answer_highlighted] using h)
  obtain ⟨⟨v, rest⟩, hp⟩ := Option.isSome_iff_exists.mp hs
  simp [get_final_answer, hp]

/-- The invariant actually maintained by the engine on reachable windows:
the offset never exceeds the cursor, the cursor stays strictly inside the
viewport (when the window has positive length), and the cursor is a valid
logical index (when the list is non-empty). -/
def WindowInv (w : Window) : Prop :=
  w.offset ≤ w.cursor_index ∧
    (1 ≤ w.window_length → w.cursor_index < w.offset + w.window_length) ∧
    (0 < w.total_length → w.cursor_index < w.total_length)

lemma windowInv_update (w : Window) (new_position : Nat)
    (h1 : w.offset ≤ w.cursor_index)
    (h2 : 1 ≤ w.window_length →
      w.cursor_index < w.offset + w.window_length)
    (hn : new_position < w.total_length ∨ new_position = 0) :
    WindowInv (update_cursor_position w new_position).1 := by
  unfold WindowInv update_cursor_position
  split
  next h =>
    refine ⟨?_, ?_, ?_⟩ <;> dsimp only <;> omega
  next h =>
    dsimp only
    exact ⟨h1, h2, by omega⟩

lemma windowInv_refetch {α ι : Type} (F : String → Nat → Nat → List α × Nat)
    (content : ι → String) (s : PromptState α ι)
    (h1 : s.window.offset ≤ s.window.cursor_index)
    (h2 : 1 ≤ s.window.window_length →
      s.window.cursor_index < s.window.offset + s.window.window_length) :
    WindowInv (refetch F content s).window := by
  unfold refetch
  dsimp only
  refine windowInv_update _ _ ?_ ?_ ?_
  · exact h1
  · exact h2
  · dsimp only
    omega

lemma windowInv_move_up (w : Window) (qty : Nat) (wrap : Bool)
    (h : WindowInv w) : WindowInv (move_cursor_up w qty wrap).1 := by
  unfold move_cursor_up
  split
  next => exact h
  next ht =>
    apply windowInv_update _ _ h.1 h.2.1
    exact Or.inl (Nat.mod_lt _ (by omega))

lemma windowInv_move_down (w : Window) (qty : Nat) (wrap : Bool)
    (h : WindowInv w) : WindowInv (move_cursor_down w qty wrap).1 := by
  unfold move_cursor_down
  split
  next => exact h
  next ht =>
    apply windowInv_update _ _ h.1 h.2.1
    exact Or.inl (Nat.mod_lt _ (by omega))

lemma windowInv_handle {α ι β : Type} (F : String → Nat → Nat → List α × Nat)
    (content : ι → String) (inputHandle : β → ι → ι × InputActionResult)
    (s : PromptState α ι) (a : CustomSelectPromptAction β)
    (s' : PromptState α ι) (r : ActionResult)
    (h : WindowInv s.window)
    (he : handle F content inputHandle s a = some (s', r)) :
    WindowInv s'.window := by
  cases a with
  | moveUp =>
      simp only [handle, Option.some.injEq, Prod.mk.injEq] at he
      rw [← he.1]
      exact windowInv_refetch F content _
        (windowInv_move_up s.window 1 true h).1
        (windowInv_move_up s.window 1 true h).2.1
  | moveDown =>
      simp only [handle, Option.some.injEq, Prod.mk.injEq] at he
      rw [← he.1]
      exact windowInv_refetch F content _
        (windowInv_move_down s.window 1 true h).1
        (windowInv_move_down s.window 1 true h).2.1
  | pageUp => simp [handle] at he
  | pageDown => simp [handle] at he
  | moveToStart => simp [handle] at he
  | moveToEnd => simp [handle] at he
  | filterInput b =>
      simp only [handle, Option.some.injEq, Prod.mk.injEq] at he
      rw [← he.1]
      split
      next => exact windowInv_refetch F content _ h.1 h.2.1
      next => exact h

lemma windowInv_handleSeq {α ι β : Type}
    (F : String → Nat → Nat → List α × Nat) (content : ι → String)
    (inputHandle : β → ι → ι × InputActionResult)
    (l : List (CustomSelectPromptAction β)) :
    ∀ (s s' : PromptState α ι), WindowInv s.window →
      handleSeq F content inputHandle s l = some s' →
      WindowInv s'.window := by
  induction l with
  | nil =>
      intro s s' h he
      simp only [handleSeq, Option.some.injEq] at he
      exact he ▸ h
  | cons a rest ih2 =>
      intro s s' h he
      unfold handleSeq at he
      cases hh : handle F content inputHandle s a with
      | none => rw [hh] at he; exact absurd he (by simp)
      | some p =>
          obtain ⟨s1, r⟩ := p
          rw [hh] at he
          exact ih2 s1 s'
            (windowInv_handle F content inputHandle s a s1 r h hh) he

/-! ### Claims -/

/-- C1: whenever a cursor update changes `cursor_index` to `new_index`,
the offset becomes
`min(new_index, total_length.saturating_sub(window_length),
new_index.saturating_sub(window_length / 2))`; and in Scenario 1
(`window_length = 3`, `total_length = 10`, `cursor_index = 0`) one
`MoveUp` yields `cursor_index = 9` and `offset = 7`. -/
theorem c1_offset_rule :
    (∀ (w : Window) (new_index : Nat), new_index ≠ w.cursor_index →
        (update_cursor_position w new_index).1.offset =
          min (min new_index (w.total_length - w.window_length))
            (new_index - w.window_length / 2)) ∧
      (handle fetchTen contentConst inputNoop stateTen
            CustomSelectPromptAction.moveUp).map
          (fun p => (p.1.window.cursor_index, p.1.window.offset)) =
        some (9, 7) := by
  constructor
  · intro w new_index h
    simp [update_cursor_position, h]
  · rfl

theorem c1_offset_rule_witness :
    (update_cursor_position ⟨0, 3, 10, 0⟩ 9).1.offset =
      min (min 9 (10 - 3)) (9 - 3 / 2) :=
  c1_offset_rule.1 ⟨0, 3, 10, 0⟩ 9 (by decide)

/-- C7: moving the cursor down by `total_length` from any valid cursor
position (`cursor_index < total_length`, `total_length > 0`) leaves the
window unchanged and reports no change. -/
theorem c7_wrap_law (w : Window) (h0 : 0 < w.total_length)
    (hc : w.cursor_index < w.total_length) :
    move_cursor_down w w.total_length true = (w, ActionResult.clean) := by
  have ht : w.total_length ≠ 0 := by omega
  simp [move_cursor_down, ht, update_cursor_position,
    Nat.add_mod_right, Nat.mod_eq_of_lt hc]

theorem c7_wrap_law_witness :
    move_cursor_down ⟨0, 3, 10, 4⟩ 10 true =
      (⟨0, 3, 10, 4⟩, ActionResult.clean) :=
  c7_wrap_law ⟨0, 3, 10, 4⟩ (by decide) (by decide)

/-- C10: the highlighted-item resolution is total — it equals
`cursor_index` saturating-subtract `offset` (0 when the offset exceeds the
cursor), `submit` never fails (no index underflow), and when nothing is
highlighted `submit` returns "no answer" with the state untouched. -/
theorem c10_resolution_total {α ι : Type} (s : PromptState α ι) :
    fetched_index_from_cursor_index s.window =
        s.window.cursor_index - s.window.offset ∧
      (s.window.cursor_index ≤ s.window.offset →
        fetched_index_from_cursor_index s.window = 0) ∧
      (submit s).isSome ∧
      (has_answer_highlighted s = false → submit s = some (none, s)) := by
  refine ⟨rfl, ?_, ?_, ?_⟩
  · intro h
    simp [fetched_index_from_cursor_index]
    omega
  · by_cases h : has_answer_highlighted s
    · obtain ⟨⟨a, s'⟩, hp⟩ :=
        Option.isSome_iff_exists.mp (get_final_answer_isSome s h)
      simp [submit, h, hp]
    · simp [submit, h]
  · intro h
    simp [submit, h]

theorem c10_resolution_total_witness :
    fetched_index_from_cursor_index stateTen.window = 0 :=
  (c10_resolution_total stateTen).2.1 (by decide)

/-- C2 (amended): after setup and any successfully handled action
sequence, if `total_length > 0` then `cursor_index < total_length`;
moreover `offset ≤ cursor_index` and, when `window_length ≥ 1`,
`offset + window_length ≥ cursor_index + 1` (hence
`≥ min(cursor_index + 1, total_length)`).  The claimed bound
`offset ≤ total_length.saturating_sub(window_length)` is not maintained
(see the counterexample). -/
theorem c2_invariant {α ι β : Type} (F : String → Nat → Nat → List α × Nat)
    (content : ι → String) (inputHandle : β → ι → ι × InputActionResult)
    (starting_cursor page_size : Nat) (input0 : ι)
    (actions : List (CustomSelectPromptAction β)) (s' : PromptState α ι)
    (h : handleSeq F content inputHandle
        (setup F content (newPrompt starting_cursor page_size input0))
        actions = some s') :
    (0 < s'.window.total_length →
        s'.window.cursor_index < s'.window.total_length) ∧
      s'.window.offset ≤ s'.window.cursor_index ∧
      (1 ≤ s'.window.window_length →
        s'.window.cursor_index + 1 ≤
          s'.window.offset + s'.window.window_length) := by
  have h0 : WindowInv
      (setup F content
        (newPrompt starting_cursor page_size input0 :
          PromptState α ι)).window := by
    refine windowInv_refetch F content _ ?_ ?_
    · exact Nat.le_refl _
    · intro hw
      dsimp only [newPrompt] at hw ⊢
      omega
  have hinv := windowInv_handleSeq F content inputHandle actions _ s' h0 h
  exact ⟨hinv.2.2, hinv.1, fun hw => hinv.2.1 hw⟩

theorem c2_invariant_witness :
    (0 < stateTen.window.total_length →
        stateTen.window.cursor_index < stateTen.window.total_length) ∧
      stateTen.window.offset ≤ stateTen.window.cursor_index ∧
      (1 ≤ stateTen.window.window_length →
        stateTen.window.cursor_index + 1 ≤
          stateTen.window.offset + stateTen.window.window_length) :=
  c2_invariant fetchTen contentConst inputNoop 0 3 () [] stateTen rfl

/-- C3: when a refetch reports a positive `total_length` smaller than the
current `cursor_index`, the cursor is re-clamped to `total_length - 1`
(stated for windows satisfying the engine's reachable-state bounds
`offset ≤ cursor_index < offset + window_length`); and Scenario 3 — a
filter shrinking fifty matches to two while `cursor_index = 40` — leaves
`cursor_index = 1` and `offset = 0` after `refetch()`. -/
theorem c3_clamp_law :
    (∀ (α ι : Type) (F : String → Nat → Nat → List α × Nat)
        (content : ι → String) (s : PromptState α ι) (t : Nat),
        (F (content s.input) s.window.offset s.window.window_length).2 =
          t →
        s.window.offset ≤ s.window.cursor_index →
        s.window.cursor_index <
          s.window.offset + s.window.window_length →
        0 < t → t < s.window.cursor_index →
        (refetch F content s).window.cursor_index = t - 1) ∧
      (refetch fetchTwo contentConst stateFifty).window.cursor_index =
        1 ∧
      (refetch fetchTwo contentConst stateFifty).window.offset = 0 := by
  refine ⟨?_, by decide, by decide⟩
  intro α ι F content s t hF h1 h2 ht hlt
  subst hF
  unfold refetch update_cursor_position
  dsimp only
  split
  next h => dsimp only; omega
  next h => dsimp only; omega

theorem c3_clamp_law_witness :
    (refetch fetchTwo contentConst stateFifty).window.cursor_index =
      2 - 1 :=
  c3_clamp_law.1 Unit Unit fetchTwo contentConst stateFifty 2
    (by decide) (by decide) (by decide) (by decide) (by decide)

/-- C4, evaluated at the failing input: with `offset = 7`,
`cursor_index = 9` and the slice `[10, 20, 30]`, submit removes the
highlighted item (the slice shrinks to `[10, 20]`) but pairs it with the
slice-local index 2, not the logical index `offset + 2 = 9` the claim
(and the spec, consistently with `render`'s tagging) requires. -/
theorem c4_local_index_returned :
    submit stateSubmit =
        some (some (ListOption.mk 2 30),
          { stateSubmit with fetched_options := [10, 20] }) ∧
      stateSubmit.window.offset +
          fetched_index_from_cursor_index stateSubmit.window = 9 ∧
      (2 : Nat) ≠ 9 :=
  ⟨by decide, by decide, by decide⟩

/-- C5, evaluated at the failing input: on a live ten-item state the four
page/jump actions are `todo!()` stubs — handling them panics (modelled as
`none`) instead of moving the cursor as the claim specifies. -/
theorem c5_page_actions_panic :
    handle fetchTen contentConst inputNoop stateTen
        CustomSelectPromptAction.pageUp = none ∧
      handle fetchTen contentConst inputNoop stateTen
        CustomSelectPromptAction.pageDown = none ∧
      handle fetchTen contentConst inputNoop stateTen
        CustomSelectPromptAction.moveToStart = none ∧
      handle fetchTen contentConst inputNoop stateTen
        CustomSelectPromptAction.moveToEnd = none :=
  ⟨rfl, rfl, rfl, rfl⟩

/-- C6 (amended): the page descriptor satisfies `first = (offset = 0)`,
`last = (offset + window_length ≥ total_length)`, every item is tagged
with logical index `offset +` its local index, `total = total_length`,
and `cursor` is always present, equal to the highlighted-item resolution
`cursor_index.saturating_sub(offset)` — even when that resolution is out
of the fetched slice's range. -/
theorem c6_page_descriptor {α ι : Type} (s : PromptState α ι) :
    ((renderPage s).first = true ↔ s.window.offset = 0) ∧
      ((renderPage s).last = true ↔
        s.window.total_length ≤
          s.window.offset + s.window.window_length) ∧
      (∀ i : Nat,
        (renderPage s).content[i]? =
          s.fetched_options[i]?.map fun el =>
            ListOption.mk (s.window.offset + i) el) ∧
      (renderPage s).total = s.window.total_length ∧
      (renderPage s).cursor =
        some (fetched_index_from_cursor_index s.window) := by
  refine ⟨by simp [renderPage], by simp [renderPage], ?_, rfl, rfl⟩
  intro i
  simp only [renderPage, List.getElem?_map, List.getElem?_enum]
  cases s.fetched_options[i]? <;> rfl

theorem c6_page_descriptor_witness :
    (renderPage stateSubmit).cursor =
      some (fetched_index_from_cursor_index stateSubmit.window) :=
  (c6_page_descriptor stateSubmit).2.2.2.2

/-- C6 counterexample: on the empty-list state the resolution (0) is out
of the fetched slice's range, yet the descriptor's cursor field is
`some 0`, not absent as the claim states. -/
theorem c6_counterexample :
    (renderPage stateEmpty).cursor = some 0 ∧
      stateEmpty.fetched_options[
        fetched_index_from_cursor_index stateEmpty.window]? = none :=
  ⟨rfl, rfl⟩

/-- C8 (amended): on a state reached with an empty Option Source
(`total_length = 0`, hence `cursor_index = 0` and an empty slice, with
the deterministic source again answering `([], 0)` at the same
arguments), `MoveUp` and `MoveDown` report no change and leave the
window, the slice and the input untouched (only the fetch log grows),
and submit returns "no answer" rather than an error.  The four page/jump
actions, by contrast, panic (see the counterexample). -/
theorem c8_empty_source {α ι β : Type}
    (F : String → Nat → Nat → List α × Nat) (content : ι → String)
    (inputHandle : β → ι → ι × InputActionResult) (s : PromptState α ι)
    (ht : s.window.total_length = 0) (hc : s.window.cursor_index = 0)
    (hf : s.fetched_options = [])
    (hF : F (content s.input) s.window.offset s.window.window_length =
      ([], 0)) :
    handle F content inputHandle s CustomSelectPromptAction.moveUp =
        some ({ s with
            fetchLog := (content s.input, s.window.offset,
              s.window.window_length) :: s.fetchLog },
          ActionResult.clean) ∧
      handle F content inputHandle s CustomSelectPromptAction.moveDown =
        some ({ s with
            fetchLog := (content s.input, s.window.offset,
              s.window.window_length) :: s.fetchLog },
          ActionResult.clean) ∧
      submit s = some (none, s) := by
  obtain ⟨fo, ⟨off, wl, t, c⟩, inp, log⟩ := s
  dsimp only at ht hc hf hF ⊢
  subst ht hc hf
  refine ⟨?_, ?_, ?_⟩ <;>
    simp [handle, move_cursor_up, move_cursor_down, refetch,
      update_cursor_position, hF, submit, has_answer_highlighted,
      fetched_index_from_cursor_index]

theorem c8_empty_source_witness :
    handle fetchEmpty contentConst inputNoop stateEmpty
        CustomSelectPromptAction.moveUp =
      some ({ stateEmpty with fetchLog := [("", 0, 3)] },
        ActionResult.clean) :=
  (c8_empty_source fetchEmpty contentConst inputNoop stateEmpty
    rfl rfl rfl rfl).1

/-- C8 counterexample to the claim as stated: with `total_length = 0`,
handling the cursor-movement action `PageUp` does not leave the state
unchanged reporting no change — it panics (`todo!()`, modelled `none`). -/
theorem c8_counterexample :
    handle fetchEmpty contentConst inputNoop stateEmpty
      CustomSelectPromptAction.pageUp = none :=
  rfl

/-- C9: handling one action calls the Option Source's fetch at most once,
and a filter edit calls it exactly once when the Filter Text Input
reports a content change and never otherwise (fetch calls are counted by
the embedding's `fetchLog`). -/
theorem c9_single_fetch {α ι β : Type}
    (F : String → Nat → Nat → List α × Nat) (content : ι → String)
    (inputHandle : β → ι → ι × InputActionResult)
    (s : PromptState α ι) :
    (∀ (a : CustomSelectPromptAction β) (s' : PromptState α ι)
        (r : ActionResult),
        handle F content inputHandle s a = some (s', r) →
        s'.fetchLog.length ≤ s.fetchLog.length + 1) ∧
      (∀ (b : β) (s' : PromptState α ι) (r : ActionResult),
        handle F content inputHandle s
            (CustomSelectPromptAction.filterInput b) = some (s', r) →
        s'.fetchLog.length =
          if (inputHandle b s.input).2 = InputActionResult.contentChanged
          then s.fetchLog.length + 1 else s.fetchLog.length) := by
  constructor
  · intro a s' r he
    cases a with
    | moveUp =>
        simp only [handle, Option.some.injEq, Prod.mk.injEq] at he
        rw [← he.1]
        simp [refetch]
    | moveDown =>
        simp only [handle, Option.some.injEq, Prod.mk.injEq] at he
        rw [← he.1]
        simp [refetch]
    | pageUp => simp [handle] at he
    | pageDown => simp [handle] at he
    | moveToStart => simp [handle] at he
    | moveToEnd => simp [handle] at he
    | filterInput b =>
        simp only [handle, Option.some.injEq, Prod.mk.injEq] at he
        rw [← he.1]
        by_cases hcond :
          (inputHandle b s.input).2 = InputActionResult.contentChanged
        · simp [hcond, refetch]
        · simp [hcond]
  · intro b s' r he
    simp only [handle, Option.some.injEq, Prod.mk.injEq] at he
    rw [← he.1]
    by_cases hcond :
      (inputHandle b s.input).2 = InputActionResult.contentChanged
    · simp [hcond, refetch]
    · simp [hcond]

theorem c9_single_fetch_witness :
    stateTenAfterUp.fetchLog.length ≤ stateTen.fetchLog.length + 1 :=
  (c9_single_fetch fetchTen contentConst inputNoop stateTen).1
    CustomSelectPromptAction.moveUp stateTenAfterUp
    ActionResult.needsRedraw (by decide)

/-- C2 counterexample: starting from setup over a ten-item source
(`window_length = 3`), five `MoveDown`s reach `cursor_index = 5`,
`offset = 4`; a filter edit then shrinks the match count to 6, and the
refetch takes the no-change path of `update_cursor_position`, leaving
`offset = 4 > 3 = total_length.saturating_sub(window_length)` — the
claimed offset bound fails on this reachable state. -/
theorem c2_counterexample :
    (handleSeq fetchShrink contentFlag inputSetFlag
          (setup fetchShrink contentFlag (newPrompt 0 3 false))
          [CustomSelectPromptAction.moveDown,
            CustomSelectPromptAction.moveDown,
            CustomSelectPromptAction.moveDown,
            CustomSelectPromptAction.moveDown,
            CustomSelectPromptAction.moveDown,
            CustomSelectPromptAction.filterInput ()]).map
        (fun s => (s.window.offset, s.window.total_length,
          s.window.window_length)) =
      some (4, 6, 3) ∧ ¬(4 ≤ 6 - 3) :=
  ⟨by decide, by decide⟩

end Inquire
